import Mathlib

/-!
Shallow embedding of `src/main.py` of the argocd-manager repository: an
interactive menu program that shells out to the `argocd` and `kubectl`
command-line tools.  External effects (subprocess invocation, interactive
prompts, JSON parsing by the standard library) are modelled as explicit
oracle parameters; the control flow, argument construction, exception
handling and data projection of each Python function are translated
faithfully.
-/

/-- Outcome of one `subprocess.run` invocation: either the executable is
absent from the path (`FileNotFoundError`) or the tool ran and produced an
exit code, stdout and stderr. -/
inductive RunOutcome where
  | notFound
  | ran (exitCode : Nat) (stdout : String) (stderr : String)
deriving DecidableEq, Repr

/-- Python exceptions that can escape an operation in `main.py`. -/
inductive PyExc where
  | fileNotFound
  | jsonDecodeError
  | renderFault
deriving DecidableEq, Repr

/-- Result of running one menu operation, as observed by the main loop:
either the function returned normally (with the message path it took) or an
exception escaped it. -/
inductive ActionResult where
  | completed
  | handledNotFound
  | handledFailure (stderr : String)
  | cancelled
  | abortedNoInput
  | parseFailed
  | noRecords
  | rendered (rows : List (List String))
  | unhandled (e : PyExc)
deriving DecidableEq, Repr

/-- Fate of one main-loop iteration. -/
inductive LoopFate where
  | continues
  | exitProcess (code : Nat)
deriving DecidableEq, Repr

/-- `main.py` lines 556-562: the loop body is wrapped in
`try/except Exception`; any exception escaping an action is logged and the
process exits with status 1, otherwise the loop continues. -/
def main_loop_dispatch : ActionResult → LoopFate
  | .unhandled _ => .exitProcess 1
  | _ => .continues

/-! ### String helpers modelling Python string primitives -/

/-- Code-point lexicographic comparison of character lists, as Python uses
for `sorted()` on strings. -/
def charListLe : List Char → List Char → Bool
  | [], _ => true
  | _ :: _, [] => false
  | a :: as, b :: bs => if a = b then charListLe as bs else decide (a < b)

/-- Python string `<=` (code-point lexicographic). -/
def strLe (a b : String) : Bool := charListLe a.data b.data

/-- The whitespace characters removed by Python `str.strip()`. -/
def isPySpace (c : Char) : Bool :=
  c = ' ' || c = '\t' || c = '\n' || c = '\r' || c = '\x0b' || c = '\x0c'

/-- Python `str.strip()`: remove leading and trailing whitespace. -/
def pyStrip (s : String) : String :=
  String.mk (((s.data.dropWhile isPySpace).reverse.dropWhile isPySpace).reverse)

/-- Python `str.lower()` (ASCII case folding). -/
def pyLower (s : String) : String := String.mk (s.data.map Char.toLower)

/-- Helper for `pySplit`: accumulates the current fragment (reversed). -/
def splitCommaAux : List Char → List Char → List String
  | [], acc => [String.mk acc.reverse]
  | c :: cs, acc =>
      if c = ',' then String.mk acc.reverse :: splitCommaAux cs []
      else splitCommaAux cs (c :: acc)

/-- Python `str.split(',')`. -/
def pySplit (s : String) : List String := splitCommaAux s.data []

/-- Helper for `pyInStr`: does `needle` occur at the head of `hay`? -/
def charListStartsWith : List Char → List Char → Bool
  | _, [] => true
  | [], _ :: _ => false
  | h :: hs, n :: ns => h = n && charListStartsWith hs ns

/-- Helper for `pyInStr` over character lists. -/
def charListHasSub : List Char → List Char → Bool
  | hay, needle =>
    match hay with
    | [] => needle.isEmpty
    | _ :: rest => charListStartsWith hay needle || charListHasSub rest needle

/-- Python `needle in hay` on strings (substring test). -/
def pyInStr (needle hay : String) : Bool := charListHasSub hay.data needle.data

/-! ### JSON values and Python dictionary access -/

/-- JSON values as produced by `json.loads`. -/
inductive Json where
  | null
  | bool (b : Bool)
  | num (n : Int)
  | str (s : String)
  | arr (elems : List Json)
  | obj (fields : List (String × Json))

/-- Python truthiness of a parsed JSON value (`if not repos:`). -/
def jsonTruthy : Json → Bool
  | .null => false
  | .bool b => b
  | .num n => decide (n ≠ 0)
  | .str s => !(s == "")
  | .arr xs => !xs.isEmpty
  | .obj fs => !fs.isEmpty

/-- Dictionary lookup; on duplicate keys `json.loads` keeps the last
binding, so the last match wins. -/
def dictGet (fs : List (String × Json)) (k : String) : Option Json :=
  ((fs.filter (fun p => p.1 == k)).getLast?).map (fun p => p.2)

/-- Python `value.get(k, default)`: `none` models the `AttributeError`
raised when the receiver is not a dictionary. -/
def pyGet : Json → String → Json → Option Json
  | .obj fs, k, d => some ((dictGet fs k).getD d)
  | _, _, _ => none

/-- A value passed to `rich`'s `Table.add_row`: strings render as
themselves, `None` renders as an empty cell, anything else raises
`NotRenderableError` (modelled as `none`). -/
def asCell : Json → Option String
  | .str s => some s
  | .null => some ""
  | _ => none

/-! ### Login (`login_to_argocd`, lines 21-63, and `prompt_and_login`,
lines 66-97) -/

/-- The five credential fields of the startup login. -/
inductive CredField where
  | host
  | port
  | username
  | password
  | insecure
deriving DecidableEq, Repr

/-- Environment values visible through `os.getenv` after `load_dotenv`:
`none` when the variable is unset. -/
structure EnvVars where
  host : Option String
  port : Option String
  username : Option String
  password : Option String
  insecureSkipVerify : Option String

/-- Answers the interactive prompts would return if issued. -/
structure PromptAnswers where
  host : String
  port : String
  username : String
  password : String
  insecure : Bool

/-- `os.getenv(X) or Prompt.ask(...)`: the prompt is issued exactly when
the environment value is falsy (unset or empty string); the second
component records whether the prompt was issued. -/
def envOrPrompt (v : Option String) (answer : String) : String × Bool :=
  match v with
  | some s => if s = "" then (answer, true) else (s, false)
  | none => (answer, true)

/-- The `argocd login` argument list (lines 42-48 and 80-86). -/
def loginCommand (host port username password : String) (insecure : Bool) :
    List String :=
  ["argocd", "login", host ++ ":" ++ port,
   "--username", username,
   "--password", password] ++ (if insecure then ["--insecure"] else [])

/-- What `login_to_argocd` does after building the command: returns a
boolean, or exits the whole process. -/
inductive LoginResult where
  | success
  | failure
  | exitProcess (code : Nat)
deriving DecidableEq, Repr

/-- Everything observable about one run of `login_to_argocd`. -/
structure LoginAttempt where
  host : String
  port : String
  username : String
  password : String
  insecure : Bool
  promptsIssued : List CredField
  command : List String
  result : LoginResult

/-- `login_to_argocd` (lines 21-63): each of host, port, username and
password is taken from the environment when truthy, otherwise prompted;
the insecure flag is derived from `ARGO_INSECURE_SKIP_VERIFY` with default
`"false"` and is never prompted.  `FileNotFoundError` exits the process
with status 1; `CalledProcessError` returns `False`; otherwise `True`. -/
def login_to_argocd (env : EnvVars) (answers : PromptAnswers)
    (run : List String → RunOutcome) : LoginAttempt :=
  let hostR := envOrPrompt env.host answers.host
  let portR := envOrPrompt env.port answers.port
  let userR := envOrPrompt env.username answers.username
  let passR := envOrPrompt env.password answers.password
  let skipVerifyStr := pyLower (env.insecureSkipVerify.getD "false")
  let insecure :=
    skipVerifyStr == "true" || skipVerifyStr == "1" || skipVerifyStr == "yes"
  let prompts :=
    (if hostR.2 then [CredField.host] else []) ++
    (if portR.2 then [CredField.port] else []) ++
    (if userR.2 then [CredField.username] else []) ++
    (if passR.2 then [CredField.password] else [])
  let command := loginCommand hostR.1 portR.1 userR.1 passR.1 insecure
  let result :=
    match run command with
    | .notFound => LoginResult.exitProcess 1
    | .ran c _ _ => if c = 0 then LoginResult.success else LoginResult.failure
  ⟨hostR.1, portR.1, userR.1, passR.1, insecure, prompts, command, result⟩

/-- Result of `prompt_and_login`: unlike the startup login it catches only
`CalledProcessError`, so a missing executable escapes as an exception. -/
inductive RetryLoginResult where
  | success
  | failure
  | unhandled (e : PyExc)
deriving DecidableEq, Repr

/-- `prompt_and_login` (lines 66-97): always prompts for all five fields,
then attempts the login. -/
def prompt_and_login (answers : PromptAnswers)
    (run : List String → RunOutcome) : RetryLoginResult :=
  match run (loginCommand answers.host answers.port answers.username
      answers.password answers.insecure) with
  | .notFound => .unhandled .fileNotFound
  | .ran c _ _ => if c = 0 then .success else .failure

/-! ### kubectl-based setup actions (lines 100-190) -/

/-- The ArgoCD installation manifest URL used by install and uninstall. -/
def manifestUrl : String :=
  "https://raw.githubusercontent.com/argoproj/argo-cd/stable/manifests/install.yaml"

/-- `install_argocd` (lines 100-134): creates the namespace (tolerating
"already exists" in stderr), then applies the manifest; catches both
`FileNotFoundError` and `CalledProcessError`. -/
def install_argocd (ns : String) (run : List String → RunOutcome) :
    ActionResult :=
  match run ["kubectl", "create", "namespace", ns] with
  | .notFound => .handledNotFound
  | .ran c _ err =>
      if c = 0 || pyInStr "already exists" err then
        match run ["kubectl", "apply", "-n", ns, "-f", manifestUrl] with
        | .notFound => .handledNotFound
        | .ran c2 _ err2 => if c2 = 0 then .completed else .handledFailure err2
      else .handledFailure err

/-- `check_installation_status` (lines 137-155): runs `kubectl get pods`;
catches both `FileNotFoundError` and `CalledProcessError`. -/
def check_installation_status (ns : String) (run : List String → RunOutcome) :
    ActionResult :=
  match run ["kubectl", "get", "pods", "-n", ns] with
  | .notFound => .handledNotFound
  | .ran c _ err => if c = 0 then .completed else .handledFailure err

/-- `delete_argocd_installation` (lines 158-190): confirmation first, then
manifest deletion and optionally namespace deletion; catches both
`FileNotFoundError` and `CalledProcessError`. -/
def delete_argocd_installation (ns : String) (confirmed : Bool)
    (alsoDeleteNs : Bool) (run : List String → RunOutcome) : ActionResult :=
  if !confirmed then .cancelled
  else
    match run ["kubectl", "delete", "-n", ns, "-f", manifestUrl] with
    | .notFound => .handledNotFound
    | .ran c _ err =>
        if c = 0 then
          if alsoDeleteNs then
            match run ["kubectl", "delete", "namespace", ns] with
            | .notFound => .handledNotFound
            | .ran c2 _ err2 =>
                if c2 = 0 then .completed else .handledFailure err2
          else .completed
        else .handledFailure err

/-! ### argocd management actions (lines 232-401) -/

/-- `add_credential_template` (lines 232-257): catches only
`CalledProcessError`, so a missing executable escapes. -/
def add_credential_template (credsUrl username password : String)
    (run : List String → RunOutcome) : ActionResult :=
  match run ["argocd", "repocreds", "add", credsUrl,
      "--username", username, "--password", password] with
  | .notFound => .unhandled .fileNotFound
  | .ran c _ err => if c = 0 then .completed else .handledFailure err

/-- `add_repository` (lines 260-279): catches only `CalledProcessError`. -/
def add_repository (repoUrl : String) (run : List String → RunOutcome) :
    ActionResult :=
  match run ["argocd", "repo", "add", repoUrl] with
  | .notFound => .unhandled .fileNotFound
  | .ran c _ err => if c = 0 then .completed else .handledFailure err

/-- The interactive answers collected by `create_application`. -/
structure AppCreateAnswers where
  appName : String
  repoUrl : String
  revision : String
  path : String
  destServer : String
  destNamespace : String
  project : String
  autoSync : Bool
  autoPrune : Bool
  selfHeal : Bool

/-- The optional sync-policy arguments (lines 306-316 and 426-436). -/
def syncPolicyArgs (autoSync autoPrune selfHeal : Bool) : List String :=
  if autoSync then
    ["--sync-policy", "automated"] ++
    (if autoPrune then ["--auto-prune"] else []) ++
    (if selfHeal then ["--self-heal"] else [])
  else []

/-- The `argocd app create` argument list (lines 296-316). -/
def create_application_command (a : AppCreateAnswers) : List String :=
  ["argocd", "app", "create", a.appName,
   "--repo", a.repoUrl,
   "--revision", a.revision,
   "--path", a.path,
   "--dest-server", a.destServer,
   "--dest-namespace", a.destNamespace,
   "--project", a.project] ++ syncPolicyArgs a.autoSync a.autoPrune a.selfHeal

/-- `create_application` (lines 282-326): catches only
`CalledProcessError`. -/
def create_application (a : AppCreateAnswers)
    (run : List String → RunOutcome) : ActionResult :=
  match run (create_application_command a) with
  | .notFound => .unhandled .fileNotFound
  | .ran c _ err => if c = 0 then .completed else .handledFailure err

/-- `delete_application` (lines 374-401): aborts on empty name, asks for
confirmation, then deletes; catches only `CalledProcessError`. -/
def delete_application (appName : String) (confirmed : Bool)
    (run : List String → RunOutcome) : ActionResult :=
  if appName = "" then .abortedNoInput
  else if !confirmed then .cancelled
  else
    match run ["argocd", "app", "delete", appName, "--yes"] with
    | .notFound => .unhandled .fileNotFound
    | .ran c _ err => if c = 0 then .completed else .handledFailure err

/-! ### List operations (lines 193-229 and 329-371) -/

/-- One row of the repositories table (lines 213-220): the five projected
cells, each of which can independently fault. -/
def projectRepoRow (repo : Json) : Option (List String) := do
  let c1 ← pyGet repo "repo" (.str "") >>= asCell
  let c2 ← pyGet repo "name" (.str "") >>= asCell
  let c3 ← pyGet repo "status" (.str "") >>= asCell
  let conn ← pyGet repo "connectionState" (.obj [])
  let c4 ← pyGet conn "status" (.str "") >>= asCell
  let c5 ← pyGet repo "project" (.str "") >>= asCell
  pure [c1, c2, c3, c4, c5]

/-- One row of the applications table (lines 349-362). -/
def projectAppRow (app : Json) : Option (List String) := do
  let status ← pyGet app "status" (.obj [])
  let appSpec ← pyGet app "spec" (.obj [])
  let destination ← pyGet appSpec "destination" (.obj [])
  let metadata ← pyGet app "metadata" (.obj [])
  let c1 ← pyGet metadata "name" (.str "") >>= asCell
  let c2 ← pyGet appSpec "project" (.str "") >>= asCell
  let c3 ← pyGet destination "server" (.str "") >>= asCell
  let c4 ← pyGet destination "namespace" (.str "") >>= asCell
  let syncJ ← pyGet status "sync" (.obj [])
  let c5 ← pyGet syncJ "status" (.str "") >>= asCell
  let healthJ ← pyGet status "health" (.obj [])
  let c6 ← pyGet healthJ "status" (.str "") >>= asCell
  pure [c1, c2, c3, c4, c5, c6]

/-- Shared skeleton of the two list operations: run the command
(`check=True`), parse stdout as JSON (`JSONDecodeError` is caught), render
"no records" for a falsy value, otherwise build one row per record; a
non-list value or a row-projection fault escapes as an exception. -/
def renderListOp (projectRow : Json → Option (List String))
    (r : RunOutcome) (parse : String → Option Json) : ActionResult :=
  match r with
  | .notFound => .unhandled .fileNotFound
  | .ran c out err =>
      if c = 0 then
        match parse out with
        | none => .parseFailed
        | some j =>
            if !jsonTruthy j then .noRecords
            else
              match j with
              | .arr records =>
                  match records.mapM projectRow with
                  | some rows => .rendered rows
                  | none => .unhandled .renderFault
              | _ => .unhandled .renderFault
      else .handledFailure err

/-- `list_repositories` (lines 193-229): `run` is the outcome of
`argocd repo list -o json`, `parse` models `json.loads`. -/
def list_repositories (r : RunOutcome) (parse : String → Option Json) :
    ActionResult :=
  renderListOp projectRepoRow r parse

/-- `list_applications` (lines 329-371): `run` is the outcome of
`argocd app list -o json`, `parse` models `json.loads`. -/
def list_applications (r : RunOutcome) (parse : String → Option Json) :
    ActionResult :=
  renderListOp projectAppRow r parse

/-! ### Batch orchestrator (`create_application_batch`, lines 404-483) -/

/-- Line 411: split the input on commas, strip each fragment, keep the
truthy (non-empty) ones. -/
def parseAppNames (s : String) : List String :=
  ((pySplit s).map pyStrip).filter (fun t => !(t == ""))

/-- The shared configuration collected by the batch prompts
(lines 417-436). -/
structure BatchConfig where
  repoUrl : String
  revision : String
  environment : String
  destServer : String
  destNamespace : String
  project : String
  autoSync : Bool
  autoPrune : Bool
  selfHeal : Bool

/-- The per-item `argocd app create` argument list (lines 445-454). -/
def batchCommand (cfg : BatchConfig) (appName path : String) : List String :=
  ["argocd", "app", "create", appName,
   "--repo", cfg.repoUrl,
   "--revision", cfg.revision,
   "--path", path,
   "--dest-server", cfg.destServer,
   "--dest-namespace", cfg.destNamespace,
   "--project", cfg.project] ++
  syncPolicyArgs cfg.autoSync cfg.autoPrune cfg.selfHeal

/-- Accumulated state of the batch loop: the two outcome lists, the
invocations actually attempted (name and derived path, in order), and the
exception that escaped the loop, if any. -/
structure BatchAcc where
  succeeded : List String
  failed : List (String × String)
  invoked : List (String × String)
  raised : Option PyExc
deriving DecidableEq, Repr

/-- The per-item loop (lines 442-468): derive the path, invoke the
creation command, record success, or record the failure (with stripped
stderr) and ask whether to continue; a decline breaks out of the loop.
Only `CalledProcessError` is caught, so a missing executable escapes. -/
def batchLoop (cfg : BatchConfig) (run : List String → RunOutcome)
    (cont : String → Bool) : List String → BatchAcc
  | [] => ⟨[], [], [], none⟩
  | n :: rest =>
      let path := n ++ "/overlay/" ++ cfg.environment
      match run (batchCommand cfg n path) with
      | .notFound => ⟨[], [], [(n, path)], some .fileNotFound⟩
      | .ran c _ err =>
          if c = 0 then
            let acc := batchLoop cfg run cont rest
            ⟨n :: acc.succeeded, acc.failed, (n, path) :: acc.invoked,
             acc.raised⟩
          else
            let msg := pyStrip err
            if cont n then
              let acc := batchLoop cfg run cont rest
              ⟨acc.succeeded, (n, msg) :: acc.failed, (n, path) :: acc.invoked,
               acc.raised⟩
            else ⟨[], [(n, msg)], [(n, path)], none⟩

/-- One row of the batch summary table. -/
structure SummaryRow where
  name : String
  status : String
  details : String
deriving DecidableEq, Repr

/-- The summary table rows (lines 476-480): all successes first, then all
failures. -/
def batch_summary (succeeded : List String) (failed : List (String × String)) :
    List SummaryRow :=
  succeeded.map (fun n => ⟨n, "Success", "Application created."⟩) ++
  failed.map (fun p => ⟨p.1, "Failed", p.2⟩)

/-- Everything observable about one run of `create_application_batch`. -/
structure BatchReport where
  promptedConfig : Bool
  succeeded : List String
  failed : List (String × String)
  invoked : List (String × String)
  raised : Option PyExc
deriving DecidableEq, Repr

/-- `create_application_batch` (lines 404-483): parse the comma-separated
names; abort before any configuration prompt when none remain; otherwise
collect the shared configuration and run the per-item loop. -/
def create_application_batch (namesInput : String) (cfg : BatchConfig)
    (run : List String → RunOutcome) (cont : String → Bool) : BatchReport :=
  let app_names := parseAppNames namesInput
  if app_names.isEmpty then ⟨false, [], [], [], none⟩
  else
    let acc := batchLoop cfg run cont app_names
    ⟨true, acc.succeeded, acc.failed, acc.invoked, acc.raised⟩

/-! ### Menu and session state machine (`main`, lines 486-562) -/

/-- The management action labels (lines 492-500), in insertion order. -/
def management_labels : List String :=
  ["Add Credential Template", "Add Repository", "Create Application",
   "Create Application Batch", "Delete Application", "List Applications",
   "List Repositories"]

/-- The setup action labels (lines 502-506), in insertion order. -/
def setup_labels : List String :=
  ["Check ArgoCD Installation Status", "Install ArgoCD", "Uninstall ArgoCD"]

/-- Lines 514-518: the keys of `current_menu_text` — setup actions always,
plus the management actions when logged in, or the retry pseudo-action
when not. -/
def current_menu_labels (logged_in : Bool) : List String :=
  if logged_in then setup_labels ++ management_labels
  else setup_labels ++ ["Login to ArgoCD"]

/-- Insert a label into an already sorted list (code-point order). -/
def insertLabel (s : String) : List String → List String
  | [] => [s]
  | t :: ts => if strLe s t then s :: t :: ts else t :: insertLabel s ts

/-- Python `sorted()` on a list of strings, modelled as insertion sort
over code-point lexicographic order. -/
def sortLabels : List String → List String
  | [] => []
  | s :: ss => insertLabel s (sortLabels ss)

/-- Line 520: `sorted_menu_items = sorted(current_menu_text.keys())`. -/
def sorted_menu_items (logged_in : Bool) : List String :=
  sortLabels (current_menu_labels logged_in)

/-- Line 525: the exit entry is numbered one past the sorted labels. -/
def exit_option_number (logged_in : Bool) : Nat :=
  (sorted_menu_items logged_in).length + 1

/-- Line 528: `valid_choices = [str(i) for i in range(1, exit + 1)]`;
`Prompt.ask` re-asks until the input is one of these. -/
def valid_choices (logged_in : Bool) : List String :=
  (List.range' 1 (exit_option_number logged_in)).map (fun n => toString n)

/-- Lines 522-526: the menu as printed — the sorted labels, then Exit. -/
def rendered_menu (logged_in : Bool) : List String :=
  sorted_menu_items logged_in ++ ["Exit"]

/-- Outcome of the inner retry loop (lines 545-552). -/
inductive RetryOutcome where
  | loggedIn
  | declined
  | unhandled (e : PyExc)
deriving DecidableEq, Repr

/-- The inner retry loop (lines 545-552): each element of the script is
one iteration — the result of `prompt_and_login` and the answer to the
"try again?" confirmation consulted after a failure.  An exhausted script
behaves as a final decline. -/
def retry_login_loop : List (RetryLoginResult × Bool) → RetryOutcome
  | [] => .declined
  | (r, again) :: rest =>
      match r with
      | .success => .loggedIn
      | .unhandled e => .unhandled e
      | .failure => if again then retry_login_loop rest else .declined

/-- One dispatched choice of the outer loop: either an ordinary action ran
(producing an `ActionResult`), or the retry pseudo-action ran with the
given script. -/
inductive MenuEvent where
  | runAction (r : ActionResult)
  | retryLogin (script : List (RetryLoginResult × Bool))

/-- Effect of one loop iteration (lines 536-554 with the surrounding
`try/except`) on the `logged_in` flag and on the process: ordinary actions
never touch the flag; the retry loop sets it to true exactly on a reported
login success; an exception escaping either path exits the process. -/
def loop_step (logged_in : Bool) : MenuEvent → Bool × LoopFate
  | .runAction r => (logged_in, main_loop_dispatch r)
  | .retryLogin script =>
      match retry_login_loop script with
      | .loggedIn => (true, .continues)
      | .declined => (logged_in, .continues)
      | .unhandled _ => (logged_in, .exitProcess 1)

/-- The `logged_in` flag after a sequence of loop iterations. -/
def loop_run (logged_in : Bool) (events : List MenuEvent) : Bool :=
  events.foldl (fun b ev => (loop_step b ev).1) logged_in

/-! ## Helper lemmas -/

theorem mapConstReplicate {α β : Type} (l : List α) (b : β) :
    l.map (fun _ => b) = List.replicate l.length b := by
  induction l with
  | nil => rfl
  | cons a t ih => simp [List.replicate, ih]

theorem pyGet_absent (fs : List (String × Json)) (k : String) (d : Json)
    (h : dictGet fs k = none) : pyGet (Json.obj fs) k d = some d := by
  simp [pyGet, h]

theorem retry_login_loop_success_mem (script : List (RetryLoginResult × Bool))
    (h : retry_login_loop script = .loggedIn) :
    ∃ p ∈ script, p.1 = RetryLoginResult.success := by
  induction script with
  | nil => simp [retry_login_loop] at h
  | cons q rest ih =>
      obtain ⟨r, again⟩ := q
      cases r with
      | success => exact ⟨(.success, again), by simp, rfl⟩
      | failure =>
          simp only [retry_login_loop] at h
          by_cases hb : again = true
          · rw [if_pos hb] at h
            obtain ⟨p, hp, hps⟩ := ih h
            exact ⟨p, List.mem_cons_of_mem _ hp, hps⟩
          · rw [if_neg hb] at h
            simp at h
      | unhandled e => simp [retry_login_loop] at h

theorem batchLoop_succeeded_sublist (cfg : BatchConfig)
    (run : List String → RunOutcome) (cont : String → Bool)
    (names : List String) :
    (batchLoop cfg run cont names).succeeded.Sublist names := by
  induction names with
  | nil => simp [batchLoop]
  | cons n rest ih =>
      simp only [batchLoop]
      cases run (batchCommand cfg n (n ++ "/overlay/" ++ cfg.environment)) with
      | notFound => exact List.nil_sublist _
      | ran c out err =>
          by_cases hc : c = 0
          · simp only [if_pos hc]
            exact ih.cons₂ n
          · simp only [if_neg hc]
            by_cases hk : cont n = true
            · simp only [if_pos hk]
              exact ih.cons n
            · simp only [if_neg hk]
              exact List.nil_sublist _

theorem batchLoop_failed_sublist (cfg : BatchConfig)
    (run : List String → RunOutcome) (cont : String → Bool)
    (names : List String) :
    ((batchLoop cfg run cont names).failed.map Prod.fst).Sublist names := by
  induction names with
  | nil => simp [batchLoop]
  | cons n rest ih =>
      simp only [batchLoop]
      cases run (batchCommand cfg n (n ++ "/overlay/" ++ cfg.environment)) with
      | notFound => exact List.nil_sublist _
      | ran c out err =>
          by_cases hc : c = 0
          · simp only [if_pos hc]
            exact ih.cons n
          · simp only [if_neg hc]
            by_cases hk : cont n = true
            · simp only [if_pos hk, List.map_cons]
              exact ih.cons₂ n
            · simp only [if_neg hk, List.map_cons, List.map_nil]
              exact (List.nil_sublist rest).cons₂ n

theorem batchLoop_invoked_take (cfg : BatchConfig)
    (run : List String → RunOutcome) (cont : String → Bool)
    (names : List String) :
    ∃ k, (batchLoop cfg run cont names).invoked.map Prod.fst = names.take k := by
  induction names with
  | nil => exact ⟨0, rfl⟩
  | cons n rest ih =>
      obtain ⟨k, hk⟩ := ih
      simp only [batchLoop]
      cases run (batchCommand cfg n (n ++ "/overlay/" ++ cfg.environment)) with
      | notFound => exact ⟨1, by simp⟩
      | ran c out err =>
          by_cases hc : c = 0
          · exact ⟨k + 1, by simp only [if_pos hc, List.map_cons, hk]; rfl⟩
          · by_cases hk2 : cont n = true
            · exact ⟨k + 1,
                by simp only [if_neg hc, if_pos hk2, List.map_cons, hk]; rfl⟩
            · exact ⟨1, by simp [if_neg hc, if_neg hk2]⟩

theorem batchLoop_invoked_path (cfg : BatchConfig)
    (run : List String → RunOutcome) (cont : String → Bool)
    (names : List String) (p : String × String)
    (hp : p ∈ (batchLoop cfg run cont names).invoked) :
    p.2 = p.1 ++ "/overlay/" ++ cfg.environment := by
  induction names with
  | nil => simp [batchLoop] at hp
  | cons n rest ih =>
      simp only [batchLoop] at hp
      cases hr : run (batchCommand cfg n (n ++ "/overlay/" ++ cfg.environment)) with
      | notFound =>
          rw [hr] at hp
          simp at hp
          subst hp
          rfl
      | ran c out err =>
          rw [hr] at hp
          by_cases hc : c = 0
          · simp only [if_pos hc, List.mem_cons] at hp
            rcases hp with hp | hp
            · subst hp; rfl
            · exact ih hp
          · by_cases hk : cont n = true
            · simp only [if_neg hc, if_pos hk, List.mem_cons] at hp
              rcases hp with hp | hp
              · subst hp; rfl
              · exact ih hp
            · simp only [if_neg hc, if_neg hk, List.mem_singleton] at hp
              subst hp; rfl

theorem mem_promptFlags (f : CredField) (bh bp bu bw : Bool) :
    (f ∈ (if bh then [CredField.host] else []) ++
      (if bp then [CredField.port] else []) ++
      (if bu then [CredField.username] else []) ++
      (if bw then [CredField.password] else [])) ↔
    ((f = .host ∧ bh) ∨ (f = .port ∧ bp) ∨ (f = .username ∧ bu) ∨
      (f = .password ∧ bw)) := by
  cases bh <;> cases bp <;> cases bu <;> cases bw <;> cases f <;> decide

/-- C1: the claim says each of the five credential fields is filled by an
interactive prompt when its environment value is absent, never by a
silently substituted default.  Counterexample: with every environment
variable unset (and the would-be prompt answer for the insecure flag being
`true`), `login_to_argocd` prompts only for host, port, username and
password; no prompt is issued for the insecure flag, which is silently
defaulted to `false`. -/
theorem c1_counterexample :
    (login_to_argocd ⟨none, none, none, none, none⟩ ⟨"h", "1", "u", "pw", true⟩
        (fun _ => .ran 0 "" "")).promptsIssued =
      [CredField.host, CredField.port, CredField.username,
       CredField.password] ∧
    CredField.insecure ∉
      (login_to_argocd ⟨none, none, none, none, none⟩ ⟨"h", "1", "u", "pw", true⟩
        (fun _ => .ran 0 "" "")).promptsIssued ∧
    (login_to_argocd ⟨none, none, none, none, none⟩ ⟨"h", "1", "u", "pw", true⟩
        (fun _ => .ran 0 "" "")).insecure = false := by
  refine ⟨rfl, ?_, rfl⟩
  decide

/-- C1 (amended): for each of host, port, username and password
independently, a truthy (set and non-empty) environment value is used
without prompting and a falsy one (unset or empty) causes that field to be
prompted; the insecure flag is never prompted — it is derived from
`ARGO_INSECURE_SKIP_VERIFY` with the silent default `"false"`, lowercased
and compared against `true`/`1`/`yes`. -/
theorem c1_env_precedence (env : EnvVars) (answers : PromptAnswers)
    (run : List String → RunOutcome) :
    (∀ s, env.host = some s → s ≠ "" →
      (login_to_argocd env answers run).host = s ∧
      CredField.host ∉ (login_to_argocd env answers run).promptsIssued) ∧
    ((env.host = none ∨ env.host = some "") →
      (login_to_argocd env answers run).host = answers.host ∧
      CredField.host ∈ (login_to_argocd env answers run).promptsIssued) ∧
    (∀ s, env.port = some s → s ≠ "" →
      (login_to_argocd env answers run).port = s ∧
      CredField.port ∉ (login_to_argocd env answers run).promptsIssued) ∧
    ((env.port = none ∨ env.port = some "") →
      (login_to_argocd env answers run).port = answers.port ∧
      CredField.port ∈ (login_to_argocd env answers run).promptsIssued) ∧
    (∀ s, env.username = some s → s ≠ "" →
      (login_to_argocd env answers run).username = s ∧
      CredField.username ∉ (login_to_argocd env answers run).promptsIssued) ∧
    ((env.username = none ∨ env.username = some "") →
      (login_to_argocd env answers run).username = answers.username ∧
      CredField.username ∈ (login_to_argocd env answers run).promptsIssued) ∧
    (∀ s, env.password = some s → s ≠ "" →
      (login_to_argocd env answers run).password = s ∧
      CredField.password ∉ (login_to_argocd env answers run).promptsIssued) ∧
    ((env.password = none ∨ env.password = some "") →
      (login_to_argocd env answers run).password = answers.password ∧
      CredField.password ∈ (login_to_argocd env answers run).promptsIssued) ∧
    (CredField.insecure ∉ (login_to_argocd env answers run).promptsIssued) ∧
    ((login_to_argocd env answers run).insecure =
      (pyLower (env.insecureSkipVerify.getD "false") == "true" ||
       pyLower (env.insecureSkipVerify.getD "false") == "1" ||
       pyLower (env.insecureSkipVerify.getD "false") == "yes")) := by
  refine ⟨?_, ?_, ?_, ?_, ?_, ?_, ?_, ?_, ?_, rfl⟩
  · intro s hs hne
    constructor
    · simp [login_to_argocd, hs, envOrPrompt, hne]
    · simp [login_to_argocd, hs, envOrPrompt, hne, mem_promptFlags]
  · rintro (hs | hs) <;>
      exact ⟨by simp [login_to_argocd, hs, envOrPrompt],
        by simp [login_to_argocd, hs, envOrPrompt, mem_promptFlags]⟩
  · intro s hs hne
    constructor
    · simp [login_to_argocd, hs, envOrPrompt, hne]
    · simp [login_to_argocd, hs, envOrPrompt, hne, mem_promptFlags]
  · rintro (hs | hs) <;>
      exact ⟨by simp [login_to_argocd, hs, envOrPrompt],
        by simp [login_to_argocd, hs, envOrPrompt, mem_promptFlags]⟩
  · intro s hs hne
    constructor
    · simp [login_to_argocd, hs, envOrPrompt, hne]
    · simp [login_to_argocd, hs, envOrPrompt, hne, mem_promptFlags]
  · rintro (hs | hs) <;>
      exact ⟨by simp [login_to_argocd, hs, envOrPrompt],
        by simp [login_to_argocd, hs, envOrPrompt, mem_promptFlags]⟩
  · intro s hs hne
    constructor
    · simp [login_to_argocd, hs, envOrPrompt, hne]
    · simp [login_to_argocd, hs, envOrPrompt, hne, mem_promptFlags]
  · rintro (hs | hs) <;>
      exact ⟨by simp [login_to_argocd, hs, envOrPrompt],
        by simp [login_to_argocd, hs, envOrPrompt, mem_promptFlags]⟩
  · simp [login_to_argocd, mem_promptFlags]

/-- Witness for `c1_env_precedence` at a concrete environment: host and
password set and non-empty (used, not prompted), port unset and username
empty (prompted), `ARGO_INSECURE_SKIP_VERIFY=TRUE` (never prompted,
case-insensitively truthy). -/
theorem c1_env_precedence_witness :
    (login_to_argocd ⟨some "H", none, some "", some "P", some "TRUE"⟩
        ⟨"h", "1", "u", "pw", false⟩ (fun _ => .ran 0 "" "")).host = "H" ∧
    CredField.host ∉
      (login_to_argocd ⟨some "H", none, some "", some "P", some "TRUE"⟩
        ⟨"h", "1", "u", "pw", false⟩ (fun _ => .ran 0 "" "")).promptsIssued ∧
    (login_to_argocd ⟨some "H", none, some "", some "P", some "TRUE"⟩
        ⟨"h", "1", "u", "pw", false⟩ (fun _ => .ran 0 "" "")).port = "1" ∧
    CredField.port ∈
      (login_to_argocd ⟨some "H", none, some "", some "P", some "TRUE"⟩
        ⟨"h", "1", "u", "pw", false⟩ (fun _ => .ran 0 "" "")).promptsIssued ∧
    (login_to_argocd ⟨some "H", none, some "", some "P", some "TRUE"⟩
        ⟨"h", "1", "u", "pw", false⟩ (fun _ => .ran 0 "" "")).username = "u" ∧
    CredField.username ∈
      (login_to_argocd ⟨some "H", none, some "", some "P", some "TRUE"⟩
        ⟨"h", "1", "u", "pw", false⟩ (fun _ => .ran 0 "" "")).promptsIssued ∧
    (login_to_argocd ⟨some "H", none, some "", some "P", some "TRUE"⟩
        ⟨"h", "1", "u", "pw", false⟩ (fun _ => .ran 0 "" "")).password = "P" ∧
    CredField.insecure ∉
      (login_to_argocd ⟨some "H", none, some "", some "P", some "TRUE"⟩
        ⟨"h", "1", "u", "pw", false⟩ (fun _ => .ran 0 "" "")).promptsIssued ∧
    (login_to_argocd ⟨some "H", none, some "", some "P", some "TRUE"⟩
        ⟨"h", "1", "u", "pw", false⟩ (fun _ => .ran 0 "" "")).insecure = true := by
  have h := c1_env_precedence ⟨some "H", none, some "", some "P", some "TRUE"⟩
      ⟨"h", "1", "u", "pw", false⟩ (fun _ => .ran 0 "" "")
  obtain ⟨h1, h2, h3, h4, h5, h6, h7, h8, h9, h10⟩ := h
  refine ⟨(h1 "H" rfl (by decide)).1, (h1 "H" rfl (by decide)).2,
    (h4 (Or.inl rfl)).1, (h4 (Or.inl rfl)).2,
    (h6 (Or.inr rfl)).1, (h6 (Or.inr rfl)).2,
    (h7 "P" rfl (by decide)).1, h9, ?_⟩
  rw [h10]
  decide

/-- C2: the claim says that for every in-loop action a missing executable
is non-fatal and control returns to the menu loop.  Counterexample: for
the in-loop action `list_repositories`, a missing `argocd` executable
escapes as an uncaught exception and the main loop's handler exits the
process with status 1 instead of continuing. -/
theorem c2_counterexample :
    list_repositories RunOutcome.notFound (fun _ => none) =
      ActionResult.unhandled PyExc.fileNotFound ∧
    main_loop_dispatch
      (list_repositories RunOutcome.notFound (fun _ => none)) =
      LoopFate.exitProcess 1 ∧
    main_loop_dispatch
      (list_repositories RunOutcome.notFound (fun _ => none)) ≠
      LoopFate.continues := by
  refine ⟨rfl, rfl, ?_⟩
  decide

/-- C2 (amended): a missing executable is fatal (exit status 1) for the
setup-phase login.  For in-loop actions it is handled — non-fatal and
operation-aborting — only by the three kubectl-based setup actions; in the
argocd-based management actions, in the retry-login prompt and in the
batch loop it is uncaught, and the main loop's top-level handler then
exits the process with status 1. -/
theorem c2_not_found_by_phase :
    (∀ env answers, (login_to_argocd env answers
        (fun _ => RunOutcome.notFound)).result = .exitProcess 1) ∧
    (∀ ns, install_argocd ns (fun _ => RunOutcome.notFound) =
      .handledNotFound) ∧
    (∀ ns, check_installation_status ns (fun _ => RunOutcome.notFound) =
      .handledNotFound) ∧
    (∀ ns b, delete_argocd_installation ns true b
        (fun _ => RunOutcome.notFound) = .handledNotFound) ∧
    main_loop_dispatch .handledNotFound = .continues ∧
    (∀ u p w, add_credential_template u p w (fun _ => RunOutcome.notFound) =
      .unhandled .fileNotFound) ∧
    (∀ r, add_repository r (fun _ => RunOutcome.notFound) =
      .unhandled .fileNotFound) ∧
    (∀ a, create_application a (fun _ => RunOutcome.notFound) =
      .unhandled .fileNotFound) ∧
    (∀ n, n ≠ "" → delete_application n true (fun _ => RunOutcome.notFound) =
      .unhandled .fileNotFound) ∧
    (∀ parse, list_repositories RunOutcome.notFound parse =
      .unhandled .fileNotFound) ∧
    (∀ parse, list_applications RunOutcome.notFound parse =
      .unhandled .fileNotFound) ∧
    (∀ answers, prompt_and_login answers (fun _ => RunOutcome.notFound) =
      .unhandled .fileNotFound) ∧
    (∀ input cfg cont, parseAppNames input ≠ [] →
      (create_application_batch input cfg (fun _ => RunOutcome.notFound)
        cont).raised = some .fileNotFound) ∧
    (∀ e, main_loop_dispatch (.unhandled e) = .exitProcess 1) := by
  refine ⟨fun env answers => rfl, fun ns => rfl, fun ns => rfl,
    fun ns b => rfl, rfl, fun u p w => rfl, fun r => rfl, fun a => rfl,
    ?_, fun parse => rfl, fun parse => rfl, fun answers => rfl, ?_,
    fun e => rfl⟩
  · intro n hn
    simp [delete_application, hn]
  · intro input cfg cont h
    rcases hp : parseAppNames input with _ | ⟨x, xs⟩
    · exact absurd hp h
    · simp [create_application_batch, hp, batchLoop]

/-- Witness for `c2_not_found_by_phase` at concrete inputs: deleting the
application "app" and a batch over input "a" both hit the missing
executable. -/
theorem c2_not_found_by_phase_witness :
    delete_application "app" true (fun _ => RunOutcome.notFound) =
      ActionResult.unhandled PyExc.fileNotFound ∧
    (create_application_batch "a"
      ⟨"r", "HEAD", "dev", "s", "ns", "p", false, false, false⟩
      (fun _ => RunOutcome.notFound) (fun _ => true)).raised =
      some PyExc.fileNotFound := by
  exact ⟨c2_not_found_by_phase.2.2.2.2.2.2.2.2.1 "app" (by decide),
    c2_not_found_by_phase.2.2.2.2.2.2.2.2.2.2.2.2.1 "a"
      ⟨"r", "HEAD", "dev", "s", "ns", "p", false, false, false⟩
      (fun _ => true) (by decide)⟩

/-- C3: for every batch run over names ["a", "b", "c"] with environment
"dev" in which "a" succeeds, the invocation for "b" fails and the user
declines to continue, the outcome is succeeded = ["a"],
failed = [("b", stripped stderr)], only "a" and "b" were invoked and "c"
was never attempted. -/
theorem c3_batch_decline_stops (cfg : BatchConfig)
    (run : List String → RunOutcome) (cont : String → Bool)
    (outA errA outB errB : String) (cb : Nat)
    (henv : cfg.environment = "dev")
    (ha : run (batchCommand cfg "a" "a/overlay/dev") = .ran 0 outA errA)
    (hb : run (batchCommand cfg "b" "b/overlay/dev") = .ran cb outB errB)
    (hcb : cb ≠ 0)
    (hcont : cont "b" = false) :
    batchLoop cfg run cont ["a", "b", "c"] =
      ⟨["a"], [("b", pyStrip errB)],
       [("a", "a/overlay/dev"), ("b", "b/overlay/dev")], none⟩ ∧
    "c" ∉ (batchLoop cfg run cont ["a", "b", "c"]).invoked.map Prod.fst := by
  obtain ⟨cr, cv, ce, cs, cn, cp, b1, b2, b3⟩ := cfg
  replace henv : ce = "dev" := henv
  subst henv
  have hmain : batchLoop ⟨cr, cv, "dev", cs, cn, cp, b1, b2, b3⟩ run cont
      ["a", "b", "c"] =
      ⟨["a"], [("b", pyStrip errB)],
       [("a", "a/overlay/dev"), ("b", "b/overlay/dev")], none⟩ := by
    simp [batchLoop, ha, hb, hcb, hcont]
  refine ⟨hmain, ?_⟩
  rw [hmain]
  show ("c" : String) ∉ ["a", "b"]
  decide

/-- Witness for `c3_batch_decline_stops`: a concrete runner on which "a"
succeeds and every other command fails with stderr " boom ", and a user
who always declines. -/
theorem c3_batch_decline_stops_witness :
    batchLoop ⟨"r", "HEAD", "dev", "s", "ns", "p", false, false, false⟩
      (fun cmd =>
        if cmd = batchCommand
            ⟨"r", "HEAD", "dev", "s", "ns", "p", false, false, false⟩
            "a" "a/overlay/dev"
        then .ran 0 "" "" else .ran 1 "" " boom ")
      (fun _ => false) ["a", "b", "c"] =
      ⟨["a"], [("b", "boom")],
       [("a", "a/overlay/dev"), ("b", "b/overlay/dev")], none⟩ := by
  have h := c3_batch_decline_stops
    ⟨"r", "HEAD", "dev", "s", "ns", "p", false, false, false⟩
    (fun cmd =>
      if cmd = batchCommand
          ⟨"r", "HEAD", "dev", "s", "ns", "p", false, false, false⟩
          "a" "a/overlay/dev"
      then .ran 0 "" "" else .ran 1 "" " boom ")
    (fun _ => false) "" "" "" " boom " 1 rfl (by decide) (by decide)
    (by decide) rfl
  have hs : pyStrip " boom " = "boom" := by decide
  rw [h.1, hs]

/-- C4: in every batch run the invocations are issued once per item
following the input order (their names form a prefix of the input list),
every invocation's derived path equals `<name>/overlay/<environment>`,
and concretely for names ["a", "b"] with environment "prod" where both
invocations succeed the outcome is succeeded = ["a", "b"], failed = [],
with paths "a/overlay/prod" and "b/overlay/prod". -/
theorem c4_batch_paths_in_order (cfg : BatchConfig)
    (run : List String → RunOutcome) (cont : String → Bool)
    (names : List String)
    (outA errA outB errB : String)
    (henv : cfg.environment = "prod")
    (ha : run (batchCommand cfg "a" "a/overlay/prod") = .ran 0 outA errA)
    (hb : run (batchCommand cfg "b" "b/overlay/prod") = .ran 0 outB errB) :
    (∃ k, (batchLoop cfg run cont names).invoked.map Prod.fst =
      names.take k) ∧
    (∀ p ∈ (batchLoop cfg run cont names).invoked,
      p.2 = p.1 ++ "/overlay/" ++ cfg.environment) ∧
    batchLoop cfg run cont ["a", "b"] =
      ⟨["a", "b"], [],
       [("a", "a/overlay/prod"), ("b", "b/overlay/prod")], none⟩ := by
  refine ⟨batchLoop_invoked_take cfg run cont names,
    fun p hp => batchLoop_invoked_path cfg run cont names p hp, ?_⟩
  obtain ⟨cr, cv, ce, cs, cn, cp, b1, b2, b3⟩ := cfg
  replace henv : ce = "prod" := henv
  subst henv
  simp [batchLoop, ha, hb]

/-- Witness for `c4_batch_paths_in_order`: a concrete runner on which
every command succeeds. -/
theorem c4_batch_paths_in_order_witness :
    batchLoop ⟨"r", "HEAD", "prod", "s", "ns", "p", false, false, false⟩
      (fun _ => .ran 0 "" "") (fun _ => true) ["a", "b"] =
      ⟨["a", "b"], [],
       [("a", "a/overlay/prod"), ("b", "b/overlay/prod")], none⟩ :=
  (c4_batch_paths_in_order
    ⟨"r", "HEAD", "prod", "s", "ns", "p", false, false, false⟩
    (fun _ => .ran 0 "" "") (fun _ => true) ["a", "b"] "" "" "" ""
    rfl rfl rfl).2.2

theorem successRows_status (s : List String) :
    (s.map (fun n =>
      (⟨n, "Success", "Application created."⟩ : SummaryRow))).map
        (fun row => row.status) = List.replicate s.length "Success" := by
  induction s with
  | nil => rfl
  | cons a t ih => simp only [List.map_cons, List.length_cons,
      List.replicate, ih]

theorem failedRows_status (f : List (String × String)) :
    (f.map (fun p => (⟨p.1, "Failed", p.2⟩ : SummaryRow))).map
      (fun row => row.status) = List.replicate f.length "Failed" := by
  induction f with
  | nil => rfl
  | cons a t ih => simp only [List.map_cons, List.length_cons,
      List.replicate, ih]

theorem successRows_name (s : List String) :
    (s.map (fun n =>
      (⟨n, "Success", "Application created."⟩ : SummaryRow))).map
        (fun row => row.name) = s := by
  induction s with
  | nil => rfl
  | cons a t ih => simp only [List.map_cons, ih]

theorem failedRows_name (f : List (String × String)) :
    (f.map (fun p => (⟨p.1, "Failed", p.2⟩ : SummaryRow))).map
      (fun row => row.name) = f.map Prod.fst := by
  induction f with
  | nil => rfl
  | cons a t ih => simp only [List.map_cons, ih]

/-- C5: in every batch run the succeeded names and the failed names are
each order-preserving subsequences of the input name list, and the
summary lists all success rows first and all failure rows after them,
never interleaved, each block in that preserved order. -/
theorem c5_summary_order (cfg : BatchConfig)
    (run : List String → RunOutcome) (cont : String → Bool)
    (names : List String) :
    (batchLoop cfg run cont names).succeeded.Sublist names ∧
    ((batchLoop cfg run cont names).failed.map Prod.fst).Sublist names ∧
    (∀ s f, (batch_summary s f).map (fun row => row.status) =
      List.replicate s.length "Success" ++
      List.replicate f.length "Failed") ∧
    (∀ s f, (batch_summary s f).map (fun row => row.name) =
      s ++ f.map Prod.fst) := by
  refine ⟨batchLoop_succeeded_sublist cfg run cont names,
    batchLoop_failed_sublist cfg run cont names, ?_, ?_⟩
  · intro s f
    rw [batch_summary, List.map_append, successRows_status,
      failedRows_status]
  · intro s f
    rw [batch_summary, List.map_append, successRows_name, failedRows_name]

/-- C6: on every iteration the rendered menu is the alphabetically sorted
label set of the currently valid action partition with "Exit" forced last;
the valid choice count is setup + management + 1 when authenticated and
setup + 1 (retry login) + 1 (exit) when unauthenticated; and an accepted
choice is always a numeral of an ordinal inside the live valid range, the
non-exit ones indexing the sorted label list in bounds. -/
theorem c6_menu_shape :
    (∀ b, (sorted_menu_items b).Perm (current_menu_labels b)) ∧
    (∀ b, List.Pairwise (fun x y => strLe x y = true)
      (sorted_menu_items b)) ∧
    (∀ b, rendered_menu b = sorted_menu_items b ++ ["Exit"]) ∧
    (∀ b, (rendered_menu b).getLast? = some "Exit") ∧
    exit_option_number true =
      setup_labels.length + management_labels.length + 1 ∧
    exit_option_number false = setup_labels.length + 1 + 1 ∧
    (∀ b, (valid_choices b).length = exit_option_number b) ∧
    (∀ b s, s ∈ valid_choices b ↔
      ∃ n, 1 ≤ n ∧ n ≤ exit_option_number b ∧ s = toString n) ∧
    (∀ b n, 1 ≤ n → n ≤ exit_option_number b → n ≠ exit_option_number b →
      n - 1 < (sorted_menu_items b).length) := by
  refine ⟨?_, ?_, fun b => rfl, ?_, by decide, by decide, ?_, ?_, ?_⟩
  · intro b; cases b <;> decide
  · intro b; cases b <;> decide
  · intro b; cases b <;> decide
  · intro b
    simp [valid_choices, List.length_map, List.length_range']
  · intro b s
    constructor
    · intro hs
      simp only [valid_choices] at hs
      obtain ⟨n, hn, hns⟩ := List.mem_map.mp hs
      obtain ⟨h1, h2⟩ := List.mem_range'_1.mp hn
      exact ⟨n, h1, by omega, hns.symm⟩
    · rintro ⟨n, h1, h2, rfl⟩
      simp only [valid_choices]
      exact List.mem_map_of_mem _ (List.mem_range'_1.mpr ⟨h1, by omega⟩)
  · intro b n h1 h2 h3
    have he : exit_option_number b = (sorted_menu_items b).length + 1 := rfl
    omega

/-- Witness for `c6_menu_shape`: in the unauthenticated menu the accepted
choice "3" is the numeral of an in-range ordinal, and ordinal 3 (not the
exit ordinal 5) indexes the four sorted labels in bounds. -/
theorem c6_menu_shape_witness :
    (∃ n, 1 ≤ n ∧ n ≤ exit_option_number false ∧
      ("3" : String) = toString n) ∧
    3 - 1 < (sorted_menu_items false).length := by
  refine ⟨(c6_menu_shape.2.2.2.2.2.2.2.1 false "3").mp (by decide),
    c6_menu_shape.2.2.2.2.2.2.2.2 false 3 (by decide) (by decide)
      (by decide)⟩

/-- C7: the session flag is monotone — true stays true across any
sequence of loop iterations (no transition back to unauthenticated) — and
it becomes true only through a retry script containing a reported login
success; moreover both login functions report success exactly when the
invoked command exits with code 0. -/
theorem c7_auth_flag :
    (∀ ev, (loop_step true ev).1 = true) ∧
    (∀ events, loop_run true events = true) ∧
    (∀ b ev, (loop_step b ev).1 = true → b = true ∨
      ∃ script, ev = .retryLogin script ∧
        ∃ p ∈ script, p.1 = RetryLoginResult.success) ∧
    (∀ answers run c out err,
      run (loginCommand answers.host answers.port answers.username
        answers.password answers.insecure) = .ran c out err →
      (prompt_and_login answers run = .success ↔ c = 0)) ∧
    (∀ env answers run c out err,
      run ((login_to_argocd env answers run).command) = .ran c out err →
      ((login_to_argocd env answers run).result = .success ↔ c = 0)) := by
  have hstep : ∀ ev, (loop_step true ev).1 = true := by
    intro ev
    cases ev with
    | runAction r => rfl
    | retryLogin script =>
        cases h : retry_login_loop script <;> simp [loop_step, h]
  refine ⟨hstep, ?_, ?_, ?_, ?_⟩
  · intro events
    induction events with
    | nil => rfl
    | cons e es ih =>
        show loop_run (loop_step true e).1 es = true
        rw [hstep e]
        exact ih
  · intro b ev h
    cases b with
    | true => exact Or.inl rfl
    | false =>
        cases ev with
        | runAction r => simp [loop_step] at h
        | retryLogin script =>
            cases hr : retry_login_loop script with
            | loggedIn =>
                exact Or.inr ⟨script, rfl,
                  retry_login_loop_success_mem script hr⟩
            | declined => rw [loop_step, hr] at h; simp at h
            | unhandled e => rw [loop_step, hr] at h; simp at h
  · intro answers run c out err h
    by_cases hc : c = 0
    · subst hc
      simp [prompt_and_login, h]
    · simp [prompt_and_login, h, hc]
  · intro env answers run c out err h
    by_cases hc : c = 0
    · subst hc
      simp only [login_to_argocd] at h ⊢
      rw [h]
      simp
    · simp only [login_to_argocd] at h ⊢
      rw [h]
      simp [hc]

/-- Witness for `c7_auth_flag`: after a failed-then-successful retry
script the flag is set; a successful concrete runner makes both login
functions report success. -/
theorem c7_auth_flag_witness :
    (loop_step false
      (.retryLogin [(RetryLoginResult.failure, true),
        (RetryLoginResult.success, true)])).1 = true ∨
    (prompt_and_login ⟨"h", "1", "u", "pw", true⟩
        (fun _ => .ran 0 "" "") = RetryLoginResult.success ∧
      (login_to_argocd ⟨none, none, none, none, none⟩
        ⟨"h", "1", "u", "pw", true⟩ (fun _ => .ran 0 "" "")).result =
        LoginResult.success) := by
  refine Or.inr ⟨?_, ?_⟩
  · exact (c7_auth_flag.2.2.2.1 ⟨"h", "1", "u", "pw", true⟩
      (fun _ => .ran 0 "" "") 0 "" "" rfl).mpr rfl
  · exact (c7_auth_flag.2.2.2.2 ⟨none, none, none, none, none⟩
      ⟨"h", "1", "u", "pw", true⟩ (fun _ => .ran 0 "" "") 0 "" "" rfl).mpr rfl

/-- C8: for both list operations, stdout parsing to an empty JSON array
yields the "no records" outcome (a message, zero table rows), not a parse
error; unparsable stdout yields the distinct parse-failure outcome. -/
theorem c8_empty_vs_malformed :
    (∀ parse out err, parse out = some (Json.arr []) →
      list_repositories (.ran 0 out err) parse = .noRecords) ∧
    (∀ parse out err, parse out = none →
      list_repositories (.ran 0 out err) parse = .parseFailed) ∧
    (∀ parse out err, parse out = some (Json.arr []) →
      list_applications (.ran 0 out err) parse = .noRecords) ∧
    (∀ parse out err, parse out = none →
      list_applications (.ran 0 out err) parse = .parseFailed) ∧
    ActionResult.noRecords ≠ ActionResult.parseFailed ∧
    (∀ rows, ActionResult.noRecords ≠ ActionResult.rendered rows) := by
  refine ⟨?_, ?_, ?_, ?_, by decide, fun rows h => by cases h⟩
  · intro parse out err h
    simp [list_repositories, renderListOp, h, jsonTruthy]
  · intro parse out err h
    simp [list_repositories, renderListOp, h]
  · intro parse out err h
    simp [list_applications, renderListOp, h, jsonTruthy]
  · intro parse out err h
    simp [list_applications, renderListOp, h]

/-- Witness for `c8_empty_vs_malformed` at concrete parser oracles. -/
theorem c8_empty_vs_malformed_witness :
    list_repositories (.ran 0 "[]" "") (fun _ => some (Json.arr [])) =
      ActionResult.noRecords ∧
    list_repositories (.ran 0 "oops" "") (fun _ => none) =
      ActionResult.parseFailed ∧
    list_applications (.ran 0 "[]" "") (fun _ => some (Json.arr [])) =
      ActionResult.noRecords ∧
    list_applications (.ran 0 "oops" "") (fun _ => none) =
      ActionResult.parseFailed :=
  ⟨c8_empty_vs_malformed.1 _ "[]" "" rfl,
   c8_empty_vs_malformed.2.1 _ "oops" "" rfl,
   c8_empty_vs_malformed.2.2.1 _ "[]" "" rfl,
   c8_empty_vs_malformed.2.2.2.1 _ "oops" "" rfl⟩

/-- C9: a merely-missing optional field never faults and renders as an
empty string: an absent leaf key yields an empty cell; an absent
connection-state, sync/health status or destination container yields
empty cells for everything projected beneath it; a repository or
application record with any (or all) of its optional fields absent still
projects to a complete row. -/
theorem c9_missing_fields_render_empty :
    (∀ fs k, dictGet fs k = none →
      (pyGet (Json.obj fs) k (Json.str "") >>= asCell) = some "") ∧
    (∀ fs, dictGet fs "connectionState" = none →
      (pyGet (Json.obj fs) "connectionState" (Json.obj []) >>= fun conn =>
        pyGet conn "status" (Json.str "") >>= asCell) = some "") ∧
    (∀ fs, dictGet fs "status" = none →
      ((pyGet (Json.obj fs) "status" (Json.obj []) >>= fun st =>
        pyGet st "sync" (Json.obj []) >>= fun sy =>
          pyGet sy "status" (Json.str "") >>= asCell) = some "" ∧
       (pyGet (Json.obj fs) "status" (Json.obj []) >>= fun st =>
        pyGet st "health" (Json.obj []) >>= fun he =>
          pyGet he "status" (Json.str "") >>= asCell) = some "")) ∧
    (∀ fs, dictGet fs "destination" = none →
      ((pyGet (Json.obj fs) "destination" (Json.obj []) >>= fun de =>
        pyGet de "server" (Json.str "") >>= asCell) = some "" ∧
       (pyGet (Json.obj fs) "destination" (Json.obj []) >>= fun de =>
        pyGet de "namespace" (Json.str "") >>= asCell) = some "")) ∧
    (∀ v1 v2 v3 v5 : String,
      projectRepoRow (Json.obj
        [("repo", Json.str v1), ("name", Json.str v2),
         ("status", Json.str v3), ("project", Json.str v5)]) =
      some [v1, v2, v3, "", v5]) ∧
    (∀ nm pr : String,
      projectAppRow (Json.obj
        [("metadata", Json.obj [("name", Json.str nm)]),
         ("spec", Json.obj [("project", Json.str pr)])]) =
      some [nm, pr, "", "", "", ""]) ∧
    projectRepoRow (Json.obj []) = some ["", "", "", "", ""] ∧
    projectAppRow (Json.obj []) = some ["", "", "", "", "", ""] := by
  refine ⟨?_, ?_, ?_, ?_, ?_, ?_, rfl, rfl⟩
  · intro fs k h
    simp [pyGet, h, asCell]
  · intro fs h
    simp only [pyGet]
    rw [h]
    rfl
  · intro fs h
    constructor <;> (simp only [pyGet]; rw [h]; rfl)
  · intro fs h
    constructor <;> (simp only [pyGet]; rw [h]; rfl)
  · intro v1 v2 v3 v5
    rfl
  · intro nm pr
    rfl

/-- Witness for `c9_missing_fields_render_empty` at the empty record and
at a repository record carrying only its leaf fields. -/
theorem c9_missing_fields_render_empty_witness :
    (pyGet (Json.obj []) "repo" (Json.str "") >>= asCell) = some "" ∧
    (pyGet (Json.obj []) "connectionState" (Json.obj []) >>= fun conn =>
      pyGet conn "status" (Json.str "") >>= asCell) = some "" ∧
    projectRepoRow (Json.obj
      [("repo", Json.str "r"), ("name", Json.str "n"),
       ("status", Json.str "ok"), ("project", Json.str "p")]) =
      some ["r", "n", "ok", "", "p"] :=
  ⟨c9_missing_fields_render_empty.1 [] "repo" rfl,
   c9_missing_fields_render_empty.2.1 [] rfl,
   c9_missing_fields_render_empty.2.2.2.2.1 "r" "n" "ok" "p"⟩

theorem stripAllEmpty (l : List String) (h : ∀ t ∈ l, pyStrip t = "") :
    (l.map pyStrip).filter (fun t => !(t == "")) = [] := by
  induction l with
  | nil => rfl
  | cons a t ih =>
      have ha := h a (List.mem_cons_self a t)
      simp [List.filter_cons, ha,
        ih (fun x hx => h x (List.mem_cons_of_mem a hx))]

/-- C10: the batch operation derives its item list by splitting the input
on commas, stripping each fragment and discarding the fragments that are
empty after stripping; it aborts before any shared-configuration prompt
exactly when no names remain — in particular whenever every comma
fragment strips to the empty string — and then performs zero creation
invocations. -/
theorem c10_empty_input_aborts :
    (∀ input cfg run cont,
      (create_application_batch input cfg run cont).promptedConfig = false ↔
        parseAppNames input = []) ∧
    (∀ input cfg run cont, parseAppNames input = [] →
      create_application_batch input cfg run cont =
        ⟨false, [], [], [], none⟩) ∧
    (∀ input, (∀ t ∈ pySplit input, pyStrip t = "") →
      parseAppNames input = []) := by
  refine ⟨?_, ?_, ?_⟩
  · intro input cfg run cont
    rcases h : parseAppNames input with _ | ⟨x, xs⟩ <;>
      simp [create_application_batch, h]
  · intro input cfg run cont h
    simp [create_application_batch, h]
  · intro input h
    rw [parseAppNames]
    exact stripAllEmpty _ h

/-- Witness for `c10_empty_input_aborts`: the input " ,,  ," (only commas
and whitespace) aborts the batch with no prompt and no invocation. -/
theorem c10_empty_input_aborts_witness :
    create_application_batch " ,,  ,"
      ⟨"r", "HEAD", "dev", "s", "ns", "p", false, false, false⟩
      (fun _ => .ran 0 "" "") (fun _ => true) =
      ⟨false, [], [], [], none⟩ ∧
    parseAppNames " ,,  ," = [] :=
  ⟨c10_empty_input_aborts.2.1 " ,,  ,"
    ⟨"r", "HEAD", "dev", "s", "ns", "p", false, false, false⟩
    (fun _ => .ran 0 "" "") (fun _ => true) (by decide),
   c10_empty_input_aborts.2.2 " ,,  ," (by decide)⟩
